import Mathlib

/-!
Verification of `scripts/manage.py` (ClaudeSetupManager).

Shallow embedding: each Lean definition below translates one Python
function (or a contiguous region of one) from `src/scripts/manage.py`.
External observations (file-system contents, HTTP responses, process
liveness) are passed in explicitly as oracles; console printing and
sleeping have no semantic effect and are omitted, except that
warning/error messages that the claims mention are reflected in return
values.

Environment records (`dotenv_values` results, Python `dict`) are
embedded as functions `String → Option String`; the settings
dictionaries built by the projections are embedded as association
lists in insertion order, queried by `lookupKV` (first match, which
agrees with `dict` semantics because every key is inserted once).
-/

set_option autoImplicit false

namespace Manage

/-- First-match association-list lookup, the embedding of Python `dict`
access on the literal settings dictionaries (each key occurs once). -/
def lookupKV (k : String) : List (String × String) → Option String
  | [] => none
  | (k', v) :: rest => if k' = k then some v else lookupKV k rest

/-- An environment record: the string-to-string mapping loaded from the
`.env` file (`dotenv_values`), with `none` for absent keys. -/
def EnvRecord := String → Option String

/-- `env_vars.get(key, default)` from Python. -/
def envGet (env : EnvRecord) (k d : String) : String :=
  (env k).getD d

/--
Embedding of `ClaudeSetupManager.build_gcp_native_settings_env`
(manage.py lines 97-122).  The Python function prints a warning when
the project id is falsy and returns the settings dict; here it returns
the pair (warnings printed, settings dict).
-/
def build_gcp_native_settings_env (env_vars : EnvRecord) :
    List String × List (String × String) :=
  let project_id := envGet env_vars "GCP_PROJECT_ID" ""
  let warnings :=
    if project_id = "" then
      ["GCP_PROJECT_ID is missing in .env for GCP profile"]
    else []
  let cloud_region := envGet env_vars "CLOUD_ML_REGION" "global"
  let model := envGet env_vars "ANTHROPIC_MODEL" ""
  let small_fast_model := envGet env_vars "ANTHROPIC_SMALL_FAST_MODEL" ""
  let settings_env : List (String × String) :=
    [("CLAUDE_CODE_USE_VERTEX", "1"),
     ("ANTHROPIC_VERTEX_PROJECT_ID", project_id),
     ("CLOUD_ML_REGION", cloud_region),
     ("CLAUDE_CODE_DISABLE_NONESSENTIAL_TRAFFIC", "true")]
  let settings_env :=
    if model ≠ "" then settings_env ++ [("ANTHROPIC_MODEL", model)]
    else settings_env
  let settings_env :=
    if small_fast_model ≠ "" then
      settings_env ++ [("ANTHROPIC_SMALL_FAST_MODEL", small_fast_model)]
    else settings_env
  (warnings, settings_env)

/--
Embedding of `ClaudeSetupManager.build_proxy_settings_env`
(manage.py lines 124-143).
-/
def build_proxy_settings_env (env_vars : EnvRecord) : List (String × String) :=
  let port := envGet env_vars "LITELLM_PORT" "4000"
  let base_url := "http://localhost:" ++ port
  let master_key := envGet env_vars "LITELLM_MASTER_KEY" ""
  [("ANTHROPIC_BASE_URL", base_url),
   ("ANTHROPIC_AUTH_TOKEN", master_key),
   ("ANTHROPIC_MODEL", "sonnet"),
   ("ANTHROPIC_DEFAULT_OPUS_MODEL", "opus"),
   ("ANTHROPIC_DEFAULT_SONNET_MODEL", "sonnet"),
   ("ANTHROPIC_DEFAULT_HAIKU_MODEL", "haiku"),
   ("CLAUDE_CODE_SUBAGENT_MODEL", "sonnet"),
   ("CLAUDE_CODE_DISABLE_EXPERIMENTAL_BETAS", "1"),
   ("CLAUDE_CODE_DISABLE_NONESSENTIAL_TRAFFIC", "true")]

/--
Embedding of the mode check in `ClaudeSetupManager.status`
(manage.py lines 425-430): the settings document's `env` is read and
the mode is "Vertex AI (native)" exactly when
`CLAUDE_CODE_USE_VERTEX` equals `"1"`.
-/
def statusModeIsVertex (settings_env : List (String × String)) : Bool :=
  lookupKV "CLAUDE_CODE_USE_VERTEX" settings_env == some "1"

end Manage

namespace Manage

/-- Python `str.isspace` (CPython 3.11, Unicode 14.0): the exact set of
code points `str.strip()` removes — ASCII 0x09-0x0D and 0x1C-0x20 plus
NEL, NBSP, OGHAM SPACE MARK, the 0x2000-0x200A spaces, LINE SEPARATOR,
PARAGRAPH SEPARATOR, NARROW NBSP, MEDIUM MATHEMATICAL SPACE and
IDEOGRAPHIC SPACE. -/
def pyIsSpace (c : Char) : Bool :=
  let n := c.toNat
  (9 ≤ n && n ≤ 13) || (28 ≤ n && n ≤ 32) || n == 0x85 || n == 0xA0 ||
  n == 0x1680 || (0x2000 ≤ n && n ≤ 0x200A) || n == 0x2028 || n == 0x2029 ||
  n == 0x202F || n == 0x205F || n == 0x3000

/-- Python `str.strip()` on a character list: remove leading and
trailing `pyIsSpace` characters. -/
def stripChars (cs : List Char) : List Char :=
  ((cs.dropWhile pyIsSpace).reverse.dropWhile pyIsSpace).reverse

/-- Python `str.strip()`. -/
def pyStrip (s : String) : String :=
  String.mk (stripChars s.data)

/-- The code-point ranges of Unicode category Nd (decimal digits) in
CPython 3.11 / Unicode 14.0: exactly the characters `str.isdecimal`
holds of, and the only digits `int()` accepts.  Every range has length
a multiple of 10 and the digit value of a code point is its offset in
the range modulo 10. -/
def decimalDigitRanges : List (Nat × Nat) :=
  [(48, 57), (1632, 1641), (1776, 1785), (1984, 1993), (2406, 2415),
   (2534, 2543), (2662, 2671), (2790, 2799), (2918, 2927), (3046, 3055),
   (3174, 3183), (3302, 3311), (3430, 3439), (3558, 3567), (3664, 3673),
   (3792, 3801), (3872, 3881), (4160, 4169), (4240, 4249), (6112, 6121),
   (6160, 6169), (6470, 6479), (6608, 6617), (6784, 6793), (6800, 6809),
   (6992, 7001), (7088, 7097), (7232, 7241), (7248, 7257), (42528, 42537),
   (43216, 43225), (43264, 43273), (43472, 43481), (43504, 43513),
   (43600, 43609), (44016, 44025), (65296, 65305), (66720, 66729),
   (68912, 68921), (69734, 69743), (69872, 69881), (69942, 69951),
   (70096, 70105), (70384, 70393), (70736, 70745), (70864, 70873),
   (71248, 71257), (71360, 71369), (71472, 71481), (71904, 71913),
   (72016, 72025), (72784, 72793), (73040, 73049), (73120, 73129),
   (92768, 92777), (92864, 92873), (93008, 93017), (120782, 120831),
   (123200, 123209), (123632, 123641), (125264, 125273), (130032, 130041)]

/-- Python `str.isdecimal` on one character. -/
def pyIsDecimal (c : Char) : Bool :=
  decimalDigitRanges.any (fun r => r.1 ≤ c.toNat && c.toNat ≤ r.2)

/-- The code points where Python `str.isdigit` holds but
`str.isdecimal` does not (CPython 3.11 / Unicode 14.0): superscript
and subscript digits, circled and parenthesized digits, and the other
Numeric_Type=Digit characters.  `int()` raises `ValueError` on every
one of them. -/
def extraDigitCodepoints : List Nat :=
  [178, 179, 185, 4969, 4970, 4971, 4972, 4973, 4974, 4975, 4976, 4977,
   6618, 8304, 8308, 8309, 8310, 8311, 8312, 8313, 8320, 8321, 8322,
   8323, 8324, 8325, 8326, 8327, 8328, 8329, 9312, 9313, 9314, 9315,
   9316, 9317, 9318, 9319, 9320, 9332, 9333, 9334, 9335, 9336, 9337,
   9338, 9339, 9340, 9352, 9353, 9354, 9355, 9356, 9357, 9358, 9359,
   9360, 9450, 9461, 9462, 9463, 9464, 9465, 9466, 9467, 9468, 9469,
   9471, 10102, 10103, 10104, 10105, 10106, 10107, 10108, 10109, 10110,
   10112, 10113, 10114, 10115, 10116, 10117, 10118, 10119, 10120, 10122,
   10123, 10124, 10125, 10126, 10127, 10128, 10129, 10130, 68160, 68161,
   68162, 68163, 69216, 69217, 69218, 69219, 69220, 69221, 69222, 69223,
   69224, 69714, 69715, 69716, 69717, 69718, 69719, 69720, 69721, 69722,
   127232, 127233, 127234, 127235, 127236, 127237, 127238, 127239,
   127240, 127241, 127242]

/-- Python `str.isdigit` on one character: a decimal digit or one of
the Numeric_Type=Digit extras. -/
def pyIsDigit (c : Char) : Bool :=
  pyIsDecimal c || extraDigitCodepoints.contains c.toNat

/-- Python `str.isdigit` on a string: nonempty and every character has
the digit property. -/
def isDigitString (s : String) : Bool :=
  !s.data.isEmpty && s.data.all pyIsDigit

/-- The digit value of a decimal-digit character: its offset in its
Nd range, modulo 10. -/
def pyDecimalValue (c : Char) : Nat :=
  match decimalDigitRanges.find? (fun r => r.1 ≤ c.toNat && c.toNat ≤ r.2) with
  | some r => (c.toNat - r.1) % 10
  | none => 0

/-- Python `int()` on a string that passed `str.isdigit`: it succeeds
iff every character is a decimal digit (category Nd, possibly from
mixed scripts), returning the positional base-10 value of the digit
values; on any isdigit-but-not-decimal character (such as `'²'`) it
raises `ValueError`, modelled by `none`. -/
def pyIntOfDigits (s : String) : Option Nat :=
  if s.data.all pyIsDecimal then
    some (s.data.foldl (fun acc c => acc * 10 + pyDecimalValue c) 0)
  else none

/-- Observable outcome of one `stop_litellm` run: the signals delivered
(pid, signal number), whether the sentinel pid file was deleted, and
whether the call returned normally (no uncaught exception). -/
structure StopResult where
  kills : List (Nat × Nat)
  pidFileDeleted : Bool
  returnedNormally : Bool
  deriving Repr, DecidableEq

/--
Embedding of `ClaudeSetupManager.stop_litellm` (manage.py lines
185-199).  `pidFile` is the sentinel file's content, `none` when the
file does not exist.  When the file is absent the function prints and
returns.  Otherwise it strips the content and, if `pid.isdigit()`,
evaluates `int(pid)`: on an isdigit-but-not-decimal string this raises
`ValueError`, which the `except ProcessLookupError` clause does not
catch — the `finally` block still unlinks the sentinel and the
exception propagates (`returnedNormally := false`); on a decimal
string it signals SIGTERM (15) to the parsed pid
(`ProcessLookupError` is swallowed).  In every file-exists path the
`finally` block deletes the file.
-/
def stop_litellm (pidFile : Option String) : StopResult :=
  match pidFile with
  | none =>
      { kills := [], pidFileDeleted := false, returnedNormally := true }
  | some content =>
      let pid := pyStrip content
      if isDigitString pid then
        match pyIntOfDigits pid with
        | some n =>
            { kills := [(n, 15)], pidFileDeleted := true,
              returnedNormally := true }
        | none =>
            { kills := [], pidFileDeleted := true,
              returnedNormally := false }
      else
        { kills := [], pidFileDeleted := true, returnedNormally := true }

/-- C6: with `GCP_PROJECT_ID=acme` and `CLOUD_ML_REGION` absent, the
native-cloud projection emits `ANTHROPIC_VERTEX_PROJECT_ID="acme"` and
`CLOUD_ML_REGION="global"` with no warning; with an empty project id it
still returns the settings (only a warning is emitted, no failure). -/
theorem C6_gcp_native_projection (env : EnvRecord)
    (hp : env "GCP_PROJECT_ID" = some "acme")
    (hr : env "CLOUD_ML_REGION" = none) :
    lookupKV "ANTHROPIC_VERTEX_PROJECT_ID"
        (build_gcp_native_settings_env env).2 = some "acme" ∧
    lookupKV "CLOUD_ML_REGION"
        (build_gcp_native_settings_env env).2 = some "global" ∧
    (build_gcp_native_settings_env env).1 = [] ∧
    (∀ env' : EnvRecord, env' "GCP_PROJECT_ID" = some "" →
      (build_gcp_native_settings_env env').1 =
        ["GCP_PROJECT_ID is missing in .env for GCP profile"] ∧
      lookupKV "ANTHROPIC_VERTEX_PROJECT_ID"
        (build_gcp_native_settings_env env').2 = some "") := by
  refine ⟨?_, ?_, ?_, ?_⟩
  · simp only [build_gcp_native_settings_env, envGet, hp, hr]
    split <;> split <;> simp [lookupKV]
  · simp only [build_gcp_native_settings_env, envGet, hp, hr]
    split <;> split <;> simp [lookupKV]
  · simp [build_gcp_native_settings_env, envGet, hp]
  · intro env' hp'
    constructor
    · simp [build_gcp_native_settings_env, envGet, hp']
    · simp only [build_gcp_native_settings_env, envGet, hp']
      split <;> split <;> simp [lookupKV]

/-- Witness for C6 at a concrete environment record. -/
theorem C6_gcp_native_projection_witness :
    lookupKV "ANTHROPIC_VERTEX_PROJECT_ID"
      (build_gcp_native_settings_env
        (fun k => if k = "GCP_PROJECT_ID" then some "acme" else none)).2
      = some "acme" := by
  exact (C6_gcp_native_projection
    (fun k => if k = "GCP_PROJECT_ID" then some "acme" else none)
    (by decide) (by decide)).1

/-- C7: with `LITELLM_PORT=5005` and `LITELLM_MASTER_KEY=abc123`, the
proxy projection emits `ANTHROPIC_BASE_URL="http://localhost:5005"` and
`ANTHROPIC_AUTH_TOKEN="abc123"`; moreover the projection is a pure
deterministic function of the environment record (its output is
determined by the two keys it consults). -/
theorem C7_proxy_projection (env : EnvRecord)
    (hp : env "LITELLM_PORT" = some "5005")
    (hk : env "LITELLM_MASTER_KEY" = some "abc123") :
    lookupKV "ANTHROPIC_BASE_URL" (build_proxy_settings_env env)
      = some "http://localhost:5005" ∧
    lookupKV "ANTHROPIC_AUTH_TOKEN" (build_proxy_settings_env env)
      = some "abc123" ∧
    (∀ e₁ e₂ : EnvRecord,
      e₁ "LITELLM_PORT" = e₂ "LITELLM_PORT" →
      e₁ "LITELLM_MASTER_KEY" = e₂ "LITELLM_MASTER_KEY" →
      build_proxy_settings_env e₁ = build_proxy_settings_env e₂) := by
  refine ⟨?_, ?_, ?_⟩
  · simp [build_proxy_settings_env, envGet, hp, lookupKV]
  · simp [build_proxy_settings_env, envGet, hp, hk, lookupKV]
  · intro e₁ e₂ h₁ h₂
    simp [build_proxy_settings_env, envGet, h₁, h₂]

/-- Witness for C7 at a concrete environment record. -/
theorem C7_proxy_projection_witness :
    lookupKV "ANTHROPIC_BASE_URL"
      (build_proxy_settings_env
        (fun k => if k = "LITELLM_PORT" then some "5005"
                  else if k = "LITELLM_MASTER_KEY" then some "abc123"
                  else none))
      = some "http://localhost:5005" := by
  exact (C7_proxy_projection
    (fun k => if k = "LITELLM_PORT" then some "5005"
              else if k = "LITELLM_MASTER_KEY" then some "abc123"
              else none)
    (by decide) (by decide)).1

/-- C9: for every environment record the native-cloud projection
contains `CLAUDE_CODE_USE_VERTEX="1"` and never contains
`ANTHROPIC_BASE_URL`, the proxy projection never contains
`CLAUDE_CODE_USE_VERTEX`, and therefore the `status` mode check
classifies the two projections correctly. -/
theorem C9_mode_discrimination (env : EnvRecord) :
    lookupKV "CLAUDE_CODE_USE_VERTEX"
      (build_gcp_native_settings_env env).2 = some "1" ∧
    lookupKV "ANTHROPIC_BASE_URL"
      (build_gcp_native_settings_env env).2 = none ∧
    lookupKV "CLAUDE_CODE_USE_VERTEX"
      (build_proxy_settings_env env) = none ∧
    statusModeIsVertex (build_gcp_native_settings_env env).2 = true ∧
    statusModeIsVertex (build_proxy_settings_env env) = false := by
  have h1 : lookupKV "CLAUDE_CODE_USE_VERTEX"
      (build_gcp_native_settings_env env).2 = some "1" := by
    simp only [build_gcp_native_settings_env, envGet]
    split <;> split <;> simp [lookupKV]
  have h2 : lookupKV "ANTHROPIC_BASE_URL"
      (build_gcp_native_settings_env env).2 = none := by
    simp only [build_gcp_native_settings_env, envGet]
    split <;> split <;> simp [lookupKV]
  have h3 : lookupKV "CLAUDE_CODE_USE_VERTEX"
      (build_proxy_settings_env env) = none := by
    simp [build_proxy_settings_env, envGet, lookupKV]
  refine ⟨h1, h2, h3, ?_, ?_⟩
  · simp [statusModeIsVertex, h1]
  · simp [statusModeIsVertex, h3]

/-- C5: when the sentinel pid file does not exist, `stop_litellm`
returns normally, signals no process, and deletes nothing. -/
theorem C5_stop_no_pid_file :
    stop_litellm none =
      { kills := [], pidFileDeleted := false, returnedNormally := true } := by
  rfl

/-- C10 counterexample: at sentinel content `"²"` the stripped content
is not a string of decimal digits, yet `stop_litellm` does not return
normally: `"²".isdigit()` is true in Python, so `int("²")` runs and
raises an uncaught `ValueError` (only `ProcessLookupError` is caught);
the `finally` block still deletes the file and the exception
propagates.  This refutes the claim's "returns normally without
raising". -/
theorem C10_claim_counterexample :
    ((pyStrip "²").data.all Char.isDigit) = false ∧
    ((pyStrip "²").data.all pyIsDecimal) = false ∧
    stop_litellm (some "²") =
      { kills := [], pidFileDeleted := true, returnedNormally := false } := by
  refine ⟨by decide, by decide, ?_⟩
  rfl

/-- C10 (amended): when the sentinel pid file exists but its stripped
content is not a digit string in the sense of Python `str.isdigit`
(empty, or some character lacks the Unicode digit property),
`stop_litellm` signals no process, still deletes the sentinel file,
and returns normally.  (When the stripped content is isdigit-true but
not all decimal digits, the file is still deleted and no signal is
sent, but a `ValueError` propagates — see the counterexample.) -/
theorem C10_stop_nondigit_pid (content : String)
    (h : isDigitString (pyStrip content) = false) :
    stop_litellm (some content) =
      { kills := [], pidFileDeleted := true, returnedNormally := true } := by
  simp [stop_litellm, h]

/-- Witness for C10 at the concrete sentinel content `"garbage"`. -/
theorem C10_stop_nondigit_pid_witness :
    stop_litellm (some "garbage") =
      { kills := [], pidFileDeleted := true, returnedNormally := true } :=
  C10_stop_nondigit_pid "garbage" (by decide)

/-- Side effects performed by the pre-spawn part of `start_litellm`,
in program order. -/
inductive StartEffect where
  | stopCall
  | spawnProc
  | writePidFile
  deriving Repr, DecidableEq

/--
Embedding of the prelude of `ClaudeSetupManager.start_litellm`
(manage.py lines 201-247), from entry up to and including spawning the
proxy and persisting its pid.  `fileExists` is the file-system oracle
for the resolved config path.  Returns the list of effects performed
(in order) and `some exitCode` when the prelude raised
`SystemExit(exitCode)`, `none` when it fell through to the readiness
loop (in which case the process was spawned and its pid written).
-/
def start_litellm_prelude (env_vars : EnvRecord)
    (fileExists : String → Bool) : List StartEffect × Option Nat :=
  let profile := envGet env_vars "PROFILE" "gcp"
  if profile = "gcp" then
    ([], some 1)
  else
    -- self.stop_litellm()
    let effects := [StartEffect.stopCall]
    let config :=
      let c := pyStrip (envGet env_vars "LITELLM_CONFIG" "")
      if c = "" then "config.copilot.yaml" else c
    let master_key := pyStrip (envGet env_vars "LITELLM_MASTER_KEY" "")
    let config_file := "litellm/" ++ config
    if !fileExists config_file then
      (effects, some 1)
    else if master_key = "" then
      (effects, some 1)
    else
      (effects ++ [StartEffect.spawnProc, StartEffect.writePidFile], none)

/-- Outcome of the readiness-polling loop of `start_litellm`. -/
inductive ReadyOutcome where
  /-- authenticated `/health` returned 200: success, loop breaks. -/
  | success
  /-- the child process exited during startup: `SystemExit(1)`. -/
  | fatalProcessExited
  /-- authenticated `/health` returned 401/403: `SystemExit(1)`. -/
  | fatalKeyRejected
  /-- authenticated `/health` returned some other status: warn, break. -/
  | warnNonOkStatus
  /-- authenticated `/health` raised `RequestException`: warn, break. -/
  | warnAuthTimeout
  /-- the 30-iteration budget ran out with the server never reachable:
  the loop falls through silently. -/
  | exhausted
  deriving Repr, DecidableEq

/--
One probe round of the readiness loop (manage.py lines 280-326),
iterated with explicit fuel.  At iteration `i`:
`poll i` is `process.poll()` (`some code` when the child has exited);
`unauth i` is the unauthenticated `GET /health` (`none` models a
`RequestException`, `some s` an HTTP status `s`);
`auth i` is the authenticated `GET /health` likewise.
Returns the outcome and the number of loop iterations executed.
-/
def readinessLoopAux (poll : Nat → Option Int)
    (unauth auth : Nat → Option Nat) : Nat → Nat → ReadyOutcome × Nat
  | 0, i => (.exhausted, i)
  | fuel + 1, i =>
    if (poll i).isSome then
      (.fatalProcessExited, i + 1)
    else
      match unauth i with
      | none => readinessLoopAux poll unauth auth fuel (i + 1)
      | some _ =>
        match auth i with
        | some s =>
          if s = 200 then (.success, i + 1)
          else if s = 401 || s = 403 then (.fatalKeyRejected, i + 1)
          else (.warnNonOkStatus, i + 1)
        | none => (.warnAuthTimeout, i + 1)

/-- The readiness loop as `start_litellm` runs it: `for _ in range(30)`
starting at iteration 0. -/
def startReadiness (poll : Nat → Option Int)
    (unauth auth : Nat → Option Nat) : ReadyOutcome × Nat :=
  readinessLoopAux poll unauth auth 30 0

/-- Outcome of the copilot secondary-authentication loop. -/
inductive CopilotOutcome where
  /-- `POST /v1/messages` returned 200: provider authenticated. -/
  | success
  /-- 300-iteration budget exhausted without a 200: `SystemExit(1)`
  with guidance to complete the device login and retry. -/
  | fatalNotAuthenticated
  deriving Repr, DecidableEq

/--
Embedding of the copilot secondary-authentication loop of
`start_litellm` (manage.py lines 336-364), iterated with explicit
fuel.  `post i` is the synthetic `POST /v1/messages` at iteration `i`
(`none` models a `RequestException`, `some s` an HTTP status `s`);
only a 200 ends the loop successfully, everything else is retried.
Returns the outcome and the number of iterations executed.
-/
def copilotAuthLoopAux (post : Nat → Option Nat) :
    Nat → Nat → CopilotOutcome × Nat
  | 0, i => (.fatalNotAuthenticated, i)
  | fuel + 1, i =>
    if post i = some 200 then (.success, i + 1)
    else copilotAuthLoopAux post fuel (i + 1)

/-- The copilot authentication loop as `start_litellm` runs it:
`for _ in range(300)` starting at iteration 0. -/
def copilotAuth (post : Nat → Option Nat) : CopilotOutcome × Nat :=
  copilotAuthLoopAux post 300 0

/-- The exit code of the `raise SystemExit(1)` sites reachable from the
readiness loop (`none` when the loop does not exit the process). -/
def readyExitCode : ReadyOutcome → Option Nat
  | .fatalProcessExited => some 1
  | .fatalKeyRejected => some 1
  | _ => none

theorem readinessLoopAux_shift (poll : Nat → Option Int)
    (unauth auth : Nat → Option Nat) (fuel i : Nat)
    (hp : poll i = none) (hu : unauth i = none) :
    readinessLoopAux poll unauth auth (fuel + 1) i
      = readinessLoopAux poll unauth auth fuel (i + 1) := by
  simp [readinessLoopAux, hp, hu]

theorem readinessLoopAux_first_response (poll : Nat → Option Int)
    (unauth auth : Nat → Option Nat) :
    ∀ (k fuel i : Nat), k < fuel →
    (∀ j, j ≤ k → poll (i + j) = none) →
    (∀ j, j < k → unauth (i + j) = none) →
    (unauth (i + k)).isSome →
    auth (i + k) = some 200 →
    readinessLoopAux poll unauth auth fuel i = (.success, i + k + 1) := by
  intro k
  induction k with
  | zero =>
    intro fuel i hk hp hu hsome ha
    match fuel, hk with
    | fuel + 1, _ =>
      have hp0 : poll i = none := by simpa using hp 0 (Nat.le_refl 0)
      obtain ⟨u, hu0⟩ := Option.isSome_iff_exists.mp (by simpa using hsome)
      have ha0 : auth i = some 200 := by simpa using ha
      simp [readinessLoopAux, hp0, hu0, ha0]
  | succ k ih =>
    intro fuel i hk hp hu hsome ha
    match fuel, hk with
    | fuel + 1, hk =>
      have hp0 : poll i = none := by simpa using hp 0 (Nat.zero_le _)
      have hu0 : unauth i = none := by simpa using hu 0 (Nat.succ_pos k)
      rw [readinessLoopAux_shift poll unauth auth fuel i hp0 hu0]
      have hrec := ih fuel (i + 1) (Nat.lt_of_succ_lt_succ hk)
        (fun j hj => by
          simpa [show i + (j + 1) = i + 1 + j by omega]
            using hp (j + 1) (by omega))
        (fun j hj => by
          simpa [show i + (j + 1) = i + 1 + j by omega]
            using hu (j + 1) (by omega))
        (by simpa [show i + (k + 1) = i + 1 + k by omega] using hsome)
        (by simpa [show i + (k + 1) = i + 1 + k by omega] using ha)
      rw [hrec]
      congr 1
      omega

theorem readinessLoopAux_always401 (poll : Nat → Option Int)
    (unauth auth : Nat → Option Nat)
    (ha : ∀ j, auth j = some 401) (hp : ∀ j, poll j = none) :
    ∀ (fuel i : Nat), (∃ k, k < fuel ∧ (unauth (i + k)).isSome) →
    (readinessLoopAux poll unauth auth fuel i).1 = .fatalKeyRejected ∧
    (readinessLoopAux poll unauth auth fuel i).2 ≤ i + fuel := by
  intro fuel
  induction fuel with
  | zero =>
    intro i h
    obtain ⟨k, hk, _⟩ := h
    exact absurd hk (Nat.not_lt_zero k)
  | succ fuel ih =>
    intro i h
    obtain ⟨k, hk, hsome⟩ := h
    cases hcase : unauth i with
    | some u =>
      constructor <;> simp [readinessLoopAux, hp i, hcase, ha i]
    | none =>
      rw [readinessLoopAux_shift poll unauth auth fuel i (hp i) hcase]
      have hk0 : k ≠ 0 := by
        intro h0
        rw [h0] at hsome
        simp [hcase] at hsome
      obtain ⟨k', rfl⟩ := Nat.exists_eq_succ_of_ne_zero hk0
      have hrec := ih (i + 1)
        ⟨k', Nat.lt_of_succ_lt_succ hk,
          by simpa [show i + (k' + 1) = i + 1 + k' by omega] using hsome⟩
      exact ⟨hrec.1, by omega⟩

theorem copilotAuthLoopAux_all_fail (post : Nat → Option Nat) :
    ∀ (fuel i : Nat), (∀ j, j < fuel → post (i + j) ≠ some 200) →
    copilotAuthLoopAux post fuel i = (.fatalNotAuthenticated, i + fuel) := by
  intro fuel
  induction fuel with
  | zero => intro i _; simp [copilotAuthLoopAux]
  | succ fuel ih =>
    intro i h
    have h0 : ¬ post i = some 200 := by simpa using h 0 (Nat.succ_pos fuel)
    rw [copilotAuthLoopAux, if_neg h0]
    rw [ih (i + 1) (fun j hj => by
      simpa [show i + (j + 1) = i + 1 + j by omega]
        using h (j + 1) (by omega))]
    congr 1
    omega

theorem copilotAuthLoopAux_first_success (post : Nat → Option Nat) :
    ∀ (k fuel i : Nat), k < fuel →
    (∀ j, j < k → post (i + j) ≠ some 200) →
    post (i + k) = some 200 →
    copilotAuthLoopAux post fuel i = (.success, i + k + 1) := by
  intro k
  induction k with
  | zero =>
    intro fuel i hk _ ha
    match fuel, hk with
    | fuel + 1, _ =>
      have ha0 : post i = some 200 := by simpa using ha
      simp [copilotAuthLoopAux, ha0]
  | succ k ih =>
    intro fuel i hk hfail ha
    match fuel, hk with
    | fuel + 1, hk =>
      have h0 : ¬ post i = some 200 := by simpa using hfail 0 (Nat.succ_pos k)
      rw [copilotAuthLoopAux, if_neg h0]
      rw [ih fuel (i + 1) (Nat.lt_of_succ_lt_succ hk)
        (fun j hj => by
          simpa [show i + (j + 1) = i + 1 + j by omega]
            using hfail (j + 1) (by omega))
        (by simpa [show i + (k + 1) = i + 1 + k by omega] using ha)]
      congr 1
      omega

/-- C1: if the child stays alive and the mocked `/health` endpoint is
unreachable for the first `k` polling iterations and then answers the
iteration-`k` probe round with an authenticated 200 (the Nth probe,
`N = k + 1 ≤ 30`), the readiness loop of `start_litellm` reports
success and executes exactly `N` iterations — no probe is performed
after the Nth. -/
theorem C1_readiness_success_at_N (poll : Nat → Option Int)
    (unauth auth : Nat → Option Nat) (k : Nat) (hk : k < 30)
    (halive : ∀ j, j ≤ k → poll j = none)
    (hdown : ∀ j, j < k → unauth j = none)
    (hup : (unauth k).isSome)
    (h200 : auth k = some 200) :
    startReadiness poll unauth auth = (.success, k + 1) := by
  have := readinessLoopAux_first_response poll unauth auth k 30 0 hk
    (fun j hj => by simpa using halive j hj)
    (fun j hj => by simpa using hdown j hj)
    (by simpa using hup)
    (by simpa using h200)
  simpa [startReadiness] using this

/-- Witness for C1: the endpoint is unreachable for 4 iterations and
returns an authenticated 200 on the 5th probe; the loop succeeds after
exactly 5 iterations. -/
theorem C1_readiness_success_at_N_witness :
    startReadiness (fun _ => none)
      (fun i => if i < 4 then none else some 200)
      (fun _ => some 200) = (.success, 5) := by
  exact C1_readiness_success_at_N (fun _ => none)
    (fun i => if i < 4 then none else some 200)
    (fun _ => some 200) 4 (by decide)
    (fun j _ => rfl)
    (fun j hj => by simp [hj])
    (by simp)
    rfl

/-- C2: if the child stays alive and the mocked `/health` endpoint
answers every authenticated probe with 401 (and is reachable within
the budget), the readiness loop raises `SystemExit(1)` (key rejected)
and executes at most the 30-iteration budget, so the number of probes
performed never exceeds the budget. -/
theorem C2_readiness_all_401 (poll : Nat → Option Int)
    (unauth auth : Nat → Option Nat)
    (halive : ∀ j, poll j = none)
    (h401 : ∀ j, auth j = some 401)
    (hup : ∃ k, k < 30 ∧ (unauth k).isSome) :
    (startReadiness poll unauth auth).1 = .fatalKeyRejected ∧
    readyExitCode (startReadiness poll unauth auth).1 = some 1 ∧
    (startReadiness poll unauth auth).2 ≤ 30 := by
  have := readinessLoopAux_always401 poll unauth auth h401 halive 30 0
    (by obtain ⟨k, hk, hs⟩ := hup; exact ⟨k, hk, by simpa using hs⟩)
  refine ⟨by simpa [startReadiness] using this.1, ?_, by simpa [startReadiness] using this.2⟩
  have h1 : (startReadiness poll unauth auth).1 = .fatalKeyRejected := by
    simpa [startReadiness] using this.1
  rw [h1]
  rfl

/-- Witness for C2: the mocked endpoint answers every probe
(unauthenticated and authenticated) with 401. -/
theorem C2_readiness_all_401_witness :
    (startReadiness (fun _ => none) (fun _ => some 401)
        (fun _ => some 401)).1 = ReadyOutcome.fatalKeyRejected ∧
    (startReadiness (fun _ => none) (fun _ => some 401)
        (fun _ => some 401)).2 ≤ 30 := by
  have := C2_readiness_all_401 (fun _ => none) (fun _ => some 401)
    (fun _ => some 401) (fun _ => rfl) (fun _ => rfl)
    ⟨0, by decide, by simp⟩
  exact ⟨this.1, this.2.2⟩

/-- C3: in the copilot secondary-authentication loop, a 200 answer to
the synthetic `POST /v1/messages` at the first such iteration `N`
(within the 300-iteration budget) completes the flow successfully
after `N + 1` iterations, any non-200 status or network failure is
tolerated and retried, and exhausting the budget without a 200 ends in
`SystemExit(1)` with guidance to complete the device login and
retry. -/
theorem C3_copilot_secondary_auth (post : Nat → Option Nat) :
    ((∀ i, i < 300 → post i ≠ some 200) →
      copilotAuth post = (.fatalNotAuthenticated, 300)) ∧
    (∀ N, N < 300 → (∀ i, i < N → post i ≠ some 200) →
      post N = some 200 → copilotAuth post = (.success, N + 1)) := by
  constructor
  · intro h
    have := copilotAuthLoopAux_all_fail post 300 0
      (fun j hj => by simpa using h j hj)
    simpa [copilotAuth] using this
  · intro N hN hfail h200
    have := copilotAuthLoopAux_first_success post N 300 0 hN
      (fun j hj => by simpa using hfail j hj)
      (by simpa using h200)
    simpa [copilotAuth] using this

/-- Witness for C3: a mock that always answers 503 exhausts the budget
fatally; a mock that answers 200 immediately succeeds on the first
iteration. -/
theorem C3_copilot_secondary_auth_witness :
    copilotAuth (fun _ => some 503)
      = (CopilotOutcome.fatalNotAuthenticated, 300) ∧
    copilotAuth (fun _ => some 200) = (CopilotOutcome.success, 1) := by
  constructor
  · exact (C3_copilot_secondary_auth (fun _ => some 503)).1
      (fun i _ => by simp)
  · exact (C3_copilot_secondary_auth (fun _ => some 200)).2 0 (by decide)
      (fun i hi => absurd hi (Nat.not_lt_zero i)) rfl

/-- C4: when the active profile is the native-cloud profile
(`PROFILE=gcp`, or `PROFILE` absent so the default `"gcp"` applies),
`start_litellm` raises `SystemExit(1)` having performed no effect at
all: no child process is spawned and the process handle (pid file) is
never touched (not even `stop_litellm` runs). -/
theorem C4_start_refuses_gcp_profile (env : EnvRecord)
    (fileExists : String → Bool)
    (h : env "PROFILE" = some "gcp" ∨ env "PROFILE" = none) :
    start_litellm_prelude env fileExists = ([], some 1) ∧
    StartEffect.spawnProc ∉ (start_litellm_prelude env fileExists).1 ∧
    StartEffect.writePidFile ∉ (start_litellm_prelude env fileExists).1 := by
  have hmain : start_litellm_prelude env fileExists = ([], some 1) := by
    rcases h with h | h <;> simp [start_litellm_prelude, envGet, h]
  refine ⟨hmain, ?_, ?_⟩ <;> rw [hmain] <;> simp

/-- Witness for C4 at a concrete environment record with `PROFILE`
absent. -/
theorem C4_start_refuses_gcp_profile_witness :
    start_litellm_prelude (fun _ => none) (fun _ => true) = ([], some 1) :=
  (C4_start_refuses_gcp_profile (fun _ => none) (fun _ => true)
    (Or.inr rfl)).1

/-- A line of the `.env` file, as a list of characters (the file is a
list of lines, which fixes the one-assignment-per-line format and
makes embedded newlines unrepresentable, matching the claim's
restriction to newline-free keys and values). -/
abbrev Line := List Char

/-- Modelled from the spec: the `KEY=value` split used by the env-file
parser (`dotenv_values`, a library call not present in `src/`); §6
fixes the format as "flat `KEY=value` text, no quoting, one assignment
per line".  Splits a line at its first `=`; a line with no `=` is not
an assignment. -/
def splitEq : Line → Option (Line × Line)
  | [] => none
  | c :: rest =>
    if c = '=' then some ([], rest)
    else
      match splitEq rest with
      | some (k, v) => some (c :: k, v)
      | none => none

/-- The key bound by a line, if the line is an assignment. -/
def lineKey (l : Line) : Option Line :=
  (splitEq l).map Prod.fst

/-- One step of building the key-value mapping: a later assignment to
the same key overrides an earlier one, as in Python dict building. -/
def dvStep (k : Line) (acc : Option Line) (l : Line) : Option Line :=
  match splitEq l with
  | some (k', v) => if k' = k then some v else acc
  | none => acc

/-- Modelled from the spec: `dotenv_values` (library call not in
`src/`, used by `load_env_vars`, manage.py lines 65-68) — parse the
file into a string-to-string mapping and look up one key. -/
def dotenv_values_file (file : List Line) (k : Line) : Option Line :=
  file.foldl (dvStep k) none

/-- Modelled from the spec: `set_key(file, k, v, quote_mode="never")`
(library call not in `src/`, used by `update_env_vars`, manage.py
lines 70-75) — merge the assignment `k=v` into the file in place,
preserving unrelated lines and never quoting the value: the line
binding `k` is rewritten to `k=v` if one exists, otherwise `k=v` is
appended. -/
def set_key_no_quote (file : List Line) (k v : Line) : List Line :=
  if file.any (fun l => lineKey l = some k) then
    file.map (fun l => if lineKey l = some k then k ++ '=' :: v else l)
  else
    file ++ [k ++ '=' :: v]

/-- `update_env_vars({k: v})` on a file, embedding manage.py lines
70-75 for a single-entry update dict. -/
def update_env_vars (file : List Line) (k v : Line) : List Line :=
  set_key_no_quote file k v

/-- `load_env_vars()[k]` on a file, embedding manage.py lines 65-68. -/
def load_env_vars (file : List Line) (k : Line) : Option Line :=
  dotenv_values_file file k

theorem splitEq_append (k v : Line) (hk : '=' ∉ k) :
    splitEq (k ++ '=' :: v) = some (k, v) := by
  induction k with
  | nil => simp [splitEq]
  | cons c k ih =>
    have hc : ¬ c = '=' := fun h => hk (h ▸ List.mem_cons_self c k)
    have ih' := ih (fun h => hk (List.mem_cons_of_mem c h))
    simp [splitEq, hc, ih']

theorem lineKey_append (k v : Line) (hk : '=' ∉ k) :
    lineKey (k ++ '=' :: v) = some k := by
  simp [lineKey, splitEq_append k v hk]

theorem dvStep_self (k v : Line) (acc : Option Line) (hk : '=' ∉ k) :
    dvStep k acc (k ++ '=' :: v) = some v := by
  simp [dvStep, splitEq_append k v hk]

theorem dvStep_other (k : Line) (acc : Option Line) (l : Line)
    (h : lineKey l ≠ some k) : dvStep k acc l = acc := by
  unfold dvStep
  cases hs : splitEq l with
  | none => rfl
  | some p =>
    obtain ⟨k', v'⟩ := p
    have hne : ¬ k' = k := by
      intro he
      exact h (by simp [lineKey, hs, he])
    simp [hne]

theorem foldl_dvStep_map_replace (k v : Line) (hk : '=' ∉ k) :
    ∀ (file : List Line) (acc : Option Line),
    ((file.map (fun l => if lineKey l = some k then k ++ '=' :: v else l)).foldl
        (dvStep k) acc)
      = if file.any (fun l => lineKey l = some k) then some v else acc := by
  intro file
  induction file with
  | nil => intro acc; simp
  | cons l rest ih =>
    intro acc
    by_cases h : lineKey l = some k
    · have hb : decide (lineKey l = some k) = true := by simpa using h
      simp only [List.map_cons, List.foldl_cons, if_pos h, List.any_cons,
        hb, Bool.true_or, if_pos]
      rw [dvStep_self k v acc hk, ih (some v)]
      split <;> rfl
    · simp only [List.map_cons, List.foldl_cons, if_neg h, List.any_cons]
      rw [dvStep_other k acc l h, ih acc]
      have : decide (lineKey l = some k) = false := by simpa using h
      simp [this]

/-- The lines of the file that do not bind `k`: the "unrelated
entries" of the round-trip property. -/
def unrelatedLines (k : Line) (file : List Line) : List Line :=
  file.filter (fun l => lineKey l ≠ some k)

theorem unrelatedLines_map_replace (k v : Line) (hk : '=' ∉ k)
    (file : List Line) :
    unrelatedLines k
        (file.map (fun l => if lineKey l = some k then k ++ '=' :: v else l))
      = unrelatedLines k file := by
  induction file with
  | nil => rfl
  | cons l rest ih =>
    by_cases h : lineKey l = some k
    · have hnew : lineKey (k ++ '=' :: v) = some k := lineKey_append k v hk
      simp only [unrelatedLines, List.map_cons, if_pos h, List.filter_cons]
      have h1 : decide (lineKey (k ++ '=' :: v) ≠ some k) = false := by
        simp [hnew]
      have h2 : decide (lineKey l ≠ some k) = false := by simp [h]
      rw [h1, h2]
      exact ih
    · simp only [unrelatedLines, List.map_cons, if_neg h, List.filter_cons]
      have h1 : decide (lineKey l ≠ some k) = true := by simpa using h
      rw [h1]
      simp only [unrelatedLines] at ih
      rw [ih]

/-- C8: after `update_env_vars` with `{k: v}`, `load_env_vars` returns
exactly `v` for `k` (unquoted), and every line of the file binding a
different key — every unrelated entry — is preserved byte-for-byte.
The key is a well-formed env-file key (it contains no `=`), and key
and value contain no newline, as the claim requires. -/
theorem C8_update_then_load (file : List Line) (k v : Line)
    (hkEq : '=' ∉ k) (hkNl : '\n' ∉ k) (hvNl : '\n' ∉ v) :
    load_env_vars (update_env_vars file k v) k = some v ∧
    unrelatedLines k (update_env_vars file k v) = unrelatedLines k file := by
  constructor
  · unfold load_env_vars update_env_vars set_key_no_quote dotenv_values_file
    by_cases h : file.any (fun l => lineKey l = some k)
    · rw [if_pos h, foldl_dvStep_map_replace k v hkEq file none, if_pos h]
    · rw [if_neg h, List.foldl_append]
      simp only [List.foldl_cons, List.foldl_nil]
      exact dvStep_self k v _ hkEq
  · unfold update_env_vars set_key_no_quote
    by_cases h : file.any (fun l => lineKey l = some k)
    · rw [if_pos h]
      exact unrelatedLines_map_replace k v hkEq file
    · rw [if_neg h]
      unfold unrelatedLines
      rw [List.filter_append]
      have h1 : decide (lineKey (k ++ '=' :: v) ≠ some k) = false := by
        simp [lineKey_append k v hkEq]
      simp [List.filter_cons, h1, lineKey_append k v hkEq]

/-- Witness for C8 on the concrete file `["A=1", "K=old"]`, updating
`K` to `x=y` (a value that itself contains `=`). -/
theorem C8_update_then_load_witness :
    load_env_vars
        (update_env_vars
          [['A', '=', '1'], ['K', '=', 'o', 'l', 'd']]
          ['K'] ['x', '=', 'y'])
        ['K'] = some ['x', '=', 'y'] ∧
    unrelatedLines ['K']
        (update_env_vars
          [['A', '=', '1'], ['K', '=', 'o', 'l', 'd']]
          ['K'] ['x', '=', 'y'])
      = unrelatedLines ['K'] [['A', '=', '1'], ['K', '=', 'o', 'l', 'd']] :=
  C8_update_then_load [['A', '=', '1'], ['K', '=', 'o', 'l', 'd']]
    ['K'] ['x', '=', 'y'] (by decide) (by decide) (by decide)

end Manage
